import Mathlib

/-!
Verification of the banking exercise (desafio_bancario_otimizado.py and
desafio.py). Monetary amounts are modelled as rationals; Python object
mutation becomes explicit state passing: each operation returns the
boolean the Python method returns together with the updated object.
Timestamps produced by strftime with format %d-%m-%Y %H:%M:%S round-trip
through strptime exactly, so a record's stored date string is modelled as
a structured date plus time of day; the date-parsing branch of
transacoes_do_dia therefore always succeeds on records this program
creates.
-/

/-- A calendar date, the result of datetime.date(): day, month, year. -/
structure Data where
  dia : Nat
  mes : Nat
  ano : Nat
deriving DecidableEq

/-- A datetime.now() value: a date plus the time of day. -/
structure DateTime where
  date : Data
  hora : Nat
  minuto : Nat
  segundo : Nat
deriving DecidableEq

/-- Python str.lower, restricted to the ASCII strings this program uses:
every character is lowercased. -/
def pyLower (s : String) : String := ⟨s.data.map Char.toLower⟩

/-- One entry of Historico._transacoes: the dict with keys tipo, valor, data. -/
structure Registro where
  tipo : String
  valor : ℚ
  data : DateTime
deriving DecidableEq

/-- The two concrete Transacao subclasses, Saque and Deposito, each holding
its fixed amount. -/
inductive Transacao where
  | saque (valor : ℚ)
  | deposito (valor : ℚ)
deriving DecidableEq

/-- The valor property of a transaction. -/
def Transacao.valor : Transacao → ℚ
  | .saque v => v
  | .deposito v => v

/-- transacao.__class__.__name__, the kind string stored in history records. -/
def Transacao.tipo : Transacao → String
  | .saque _ => "Saque"
  | .deposito _ => "Deposito"

/-- Historico: the ordered list of transaction records of one account. -/
structure Historico where
  transacoes : List Registro
deriving DecidableEq

/-- Historico.adicionar_transacao: appends the record derived from the
transaction and the current time. -/
def Historico.adicionar_transacao (h : Historico) (transacao : Transacao)
    (agora : DateTime) : Historico :=
  ⟨h.transacoes ++ [⟨transacao.tipo, transacao.valor, agora⟩]⟩

/-- Historico.gerar_relatorio: yields the records whose tipo, lowercased,
equals the lowercased argument, or every record when the argument is None.
The Python generator is modelled by the list of the values it yields. -/
def Historico.gerar_relatorio (h : Historico) (tipo_transacao : Option String) :
    List Registro :=
  h.transacoes.filter fun transacao =>
    match tipo_transacao with
    | none => true
    | some tp => decide (pyLower transacao.tipo = pyLower tp)

/-- Historico.transacoes_do_dia: the records whose stored date equals the
current date, comparing the date part only. -/
def Historico.transacoes_do_dia (h : Historico) (data_atual : Data) :
    List Registro :=
  h.transacoes.filter fun transacao => decide (data_atual = transacao.data.date)

/-- Conta: balance, account number and owned history. The owner reference
plays no part in any operation and is omitted. -/
structure Conta where
  saldo : ℚ
  numero : Nat
  historico : Historico
deriving DecidableEq

/-- Conta.__init__: balance starts at 0 with an empty history. -/
def Conta.nova_conta (numero : Nat) : Conta :=
  ⟨0, numero, ⟨[]⟩⟩

/-- Conta.sacar: fails on a non-positive amount, then on insufficient
balance; otherwise subtracts the amount. -/
def Conta.sacar (c : Conta) (valor : ℚ) : Bool × Conta :=
  if valor ≤ 0 then (false, c)
  else if valor > c.saldo then (false, c)
  else (true, { c with saldo := c.saldo - valor })

/-- Conta.depositar: fails on a non-positive amount; otherwise adds it. -/
def Conta.depositar (c : Conta) (valor : ℚ) : Bool × Conta :=
  if valor ≤ 0 then (false, c)
  else (true, { c with saldo := c.saldo + valor })

/-- ContaCorrente: a Conta plus a per-withdrawal cap and a daily
withdrawal-count cap. -/
structure ContaCorrente where
  conta : Conta
  limite : ℚ
  limite_saques : Nat
deriving DecidableEq

/-- ContaCorrente.nova_conta with explicit limits. -/
def ContaCorrente.nova_conta (numero : Nat) (limite : ℚ)
    (limite_saques : Nat) : ContaCorrente :=
  ⟨Conta.nova_conta numero, limite, limite_saques⟩

/-- The list comprehension in ContaCorrente.sacar: today's records whose
tipo equals Saque.__name__. -/
def ContaCorrente.saques_do_dia (cc : ContaCorrente) (data_atual : Data) :
    List Registro :=
  (cc.conta.historico.transacoes_do_dia data_atual).filter fun t =>
    decide (t.tipo = "Saque")

/-- ContaCorrente.sacar: rejects an amount over the cap, then a withdrawal
count at the daily limit, then delegates to Conta.sacar. -/
def ContaCorrente.sacar (cc : ContaCorrente) (valor : ℚ) (data_atual : Data) :
    Bool × ContaCorrente :=
  let numero_saques := (cc.saques_do_dia data_atual).length
  if valor > cc.limite then (false, cc)
  else if numero_saques ≥ cc.limite_saques then (false, cc)
  else
    let r := cc.conta.sacar valor
    (r.1, { cc with conta := r.2 })

/-- Depositing on a ContaCorrente: the inherited Conta.depositar acting on
the embedded base-account state. -/
def ContaCorrente.depositar (cc : ContaCorrente) (valor : ℚ) :
    Bool × ContaCorrente :=
  let r := cc.conta.depositar valor
  (r.1, { cc with conta := r.2 })

/-- The dynamically dispatched account call inside registrar, on a base
Conta: Saque calls conta.sacar, Deposito calls conta.depositar. -/
def Transacao.operacao (t : Transacao) (c : Conta) : Bool × Conta :=
  match t with
  | .saque v => c.sacar v
  | .deposito v => c.depositar v

/-- Saque.registrar and Deposito.registrar on a base Conta: performs the
account operation, appends one history record exactly when it succeeded,
and returns the boolean the operation returned. -/
def Transacao.registrar (t : Transacao) (conta : Conta) (agora : DateTime) :
    Bool × Conta :=
  let r := t.operacao conta
  if r.1 then
    (r.1, { r.2 with historico := r.2.historico.adicionar_transacao t agora })
  else (r.1, r.2)

/-- The dispatched account call on a ContaCorrente: Saque resolves to
ContaCorrente.sacar, Deposito to the inherited depositar. -/
def Transacao.operacaoCC (t : Transacao) (cc : ContaCorrente)
    (data_atual : Data) : Bool × ContaCorrente :=
  match t with
  | .saque v => cc.sacar v data_atual
  | .deposito v => cc.depositar v

/-- registrar on a ContaCorrente: same contract as on a base Conta, with
the withdrawal path dispatching to ContaCorrente.sacar. -/
def Transacao.registrarCC (t : Transacao) (cc : ContaCorrente)
    (agora : DateTime) : Bool × ContaCorrente :=
  let r := t.operacaoCC cc agora.date
  if r.1 then
    (r.1, { r.2 with conta := { r.2.conta with
       historico := r.2.conta.historico.adicionar_transacao t agora } })
  else (r.1, r.2)

/-- Cliente.realizar_transacao: rejects the transaction outright once the
account already has two transactions today, otherwise delegates to
transacao.registrar. The accounts the program creates are all
ContaCorrente, so the account argument is one. -/
def Cliente.realizar_transacao (conta : ContaCorrente) (transacao : Transacao)
    (agora : DateTime) : Bool × ContaCorrente :=
  if (conta.conta.historico.transacoes_do_dia agora.date).length ≥ 2 then
    (false, conta)
  else transacao.registrarCC conta agora

namespace Desafio

/-!
The procedural version, desafio.py. The extrato statement string is
modelled as the list of its lines, each line carrying the operation label
and the amount; the decimal rendering of the amount inside a line is not
semantically relevant to any property here.
-/

/-- desafio.py depositar: on a positive amount adds it to the balance and
appends a statement line, otherwise leaves both unchanged. -/
def depositar (saldo : ℚ) (extrato : List (String × ℚ)) (valor : ℚ) :
    ℚ × List (String × ℚ) :=
  if valor > 0 then (saldo + valor, extrato ++ [("Depósito", valor)])
  else (saldo, extrato)

/-- desafio.py sacar: checks balance, cap, daily count and positivity in
that textual order; every failing branch leaves all three outputs
unchanged. -/
def sacar (saldo : ℚ) (extrato : List (String × ℚ)) (numero_saques : Nat)
    (valor limite : ℚ) (limite_saques : Nat) :
    ℚ × List (String × ℚ) × Nat :=
  let excedeu_saldo := valor > saldo
  let excedeu_limite := valor > limite
  let excedeu_saques := numero_saques ≥ limite_saques
  if excedeu_saldo then (saldo, extrato, numero_saques)
  else if excedeu_limite then (saldo, extrato, numero_saques)
  else if excedeu_saques then (saldo, extrato, numero_saques)
  else if valor > 0 then
    (saldo - valor, extrato ++ [("Saque", valor)], numero_saques + 1)
  else (saldo, extrato, numero_saques)

end Desafio

/-! ## Helper lemmas shared by several claims -/

lemma Conta.sacar_fail_eq (c : Conta) (v : ℚ) (h : (c.sacar v).1 = false) :
    (c.sacar v).2 = c := by
  unfold Conta.sacar at *
  split_ifs at h ⊢ <;> simp_all

lemma Conta.depositar_fail_eq (c : Conta) (v : ℚ)
    (h : (c.depositar v).1 = false) : (c.depositar v).2 = c := by
  unfold Conta.depositar at *
  split_ifs at h ⊢ <;> simp_all

lemma Transacao.operacao_fail_eq (t : Transacao) (c : Conta)
    (h : (t.operacao c).1 = false) : (t.operacao c).2 = c := by
  cases t with
  | saque v => exact c.sacar_fail_eq v h
  | deposito v => exact c.depositar_fail_eq v h

lemma Conta.sacar_historico (c : Conta) (v : ℚ) :
    (c.sacar v).2.historico = c.historico := by
  unfold Conta.sacar
  split_ifs <;> rfl

lemma Conta.depositar_historico (c : Conta) (v : ℚ) :
    (c.depositar v).2.historico = c.historico := by
  unfold Conta.depositar
  split_ifs <;> rfl

lemma Transacao.operacao_historico (t : Transacao) (c : Conta) :
    (t.operacao c).2.historico = c.historico := by
  cases t with
  | saque v => exact c.sacar_historico v
  | deposito v => exact c.depositar_historico v

/-! ## C3 -/

/-- C3: Conta.sacar returns false with the account unchanged when the
amount is non-positive or exceeds the balance; otherwise it subtracts the
amount from the balance and returns true. -/
theorem conta_sacar_spec (c : Conta) (valor : ℚ) :
    (valor ≤ 0 ∨ valor > c.saldo → c.sacar valor = (false, c)) ∧
    (0 < valor → valor ≤ c.saldo →
      c.sacar valor = (true, { c with saldo := c.saldo - valor })) := by
  constructor
  · rintro (h | h) <;>
    · unfold Conta.sacar
      split_ifs <;> first | rfl | linarith
  · intro h1 h2
    unfold Conta.sacar
    split_ifs <;> first | rfl | linarith

/-- Witness for C3 at concrete inputs: a withdrawal of 100 from balance 50
fails and leaves the account unchanged; a withdrawal of 30 from balance 50
succeeds and leaves balance 50 - 30. -/
theorem conta_sacar_spec_witness :
    (((100 : ℚ) ≤ 0 ∨ (100 : ℚ) > (Conta.mk 50 1 ⟨[]⟩).saldo) ∧
      Conta.sacar ⟨50, 1, ⟨[]⟩⟩ 100 = (false, ⟨50, 1, ⟨[]⟩⟩)) ∧
    ((0 : ℚ) < 30 ∧ (30 : ℚ) ≤ (Conta.mk 50 1 ⟨[]⟩).saldo ∧
      Conta.sacar ⟨50, 1, ⟨[]⟩⟩ 30 =
        (true, { Conta.mk 50 1 ⟨[]⟩ with saldo := 50 - 30 })) :=
  ⟨⟨Or.inr (by norm_num),
    (conta_sacar_spec ⟨50, 1, ⟨[]⟩⟩ 100).1 (Or.inr (by norm_num))⟩,
   ⟨by norm_num, by norm_num,
    (conta_sacar_spec ⟨50, 1, ⟨[]⟩⟩ 30).2 (by norm_num) (by norm_num)⟩⟩

/-! ## C4 -/

/-- C4: deposit fails with the balance unchanged on a non-positive amount
and otherwise adds the amount and returns true, both for Conta.depositar
and for the procedural depositar of desafio.py. -/
theorem conta_depositar_spec (c : Conta) (s : ℚ)
    (e : List (String × ℚ)) (valor : ℚ) :
    (valor ≤ 0 → c.depositar valor = (false, c)) ∧
    (0 < valor →
      c.depositar valor = (true, { c with saldo := c.saldo + valor })) ∧
    (valor ≤ 0 → Desafio.depositar s e valor = (s, e)) ∧
    (0 < valor →
      Desafio.depositar s e valor = (s + valor, e ++ [("Depósito", valor)])) := by
  refine ⟨fun h => ?_, fun h => ?_, fun h => ?_, fun h => ?_⟩ <;>
  · first
      | unfold Conta.depositar
      | unfold Desafio.depositar
    split_ifs <;> first | rfl | linarith

/-- Witness for C4 at concrete inputs: depositing a negative amount leaves
the state unchanged in both versions, a positive deposit adds the amount
in both versions. -/
theorem conta_depositar_spec_witness :
    ((-3 : ℚ) ≤ 0 ∧ Conta.depositar ⟨10, 1, ⟨[]⟩⟩ (-3) = (false, ⟨10, 1, ⟨[]⟩⟩)) ∧
    ((0 : ℚ) < 5 ∧ Conta.depositar ⟨10, 1, ⟨[]⟩⟩ 5 =
      (true, { Conta.mk 10 1 ⟨[]⟩ with saldo := 10 + 5 })) ∧
    ((-3 : ℚ) ≤ 0 ∧ Desafio.depositar 10 [] (-3) = (10, [])) ∧
    ((0 : ℚ) < 5 ∧ Desafio.depositar 10 [] 5 = (10 + 5, [("Depósito", 5)])) :=
  ⟨⟨by norm_num, (conta_depositar_spec ⟨10, 1, ⟨[]⟩⟩ 10 [] (-3)).1 (by norm_num)⟩,
   ⟨by norm_num, (conta_depositar_spec ⟨10, 1, ⟨[]⟩⟩ 10 [] 5).2.1 (by norm_num)⟩,
   ⟨by norm_num, (conta_depositar_spec ⟨10, 1, ⟨[]⟩⟩ 10 [] (-3)).2.2.1 (by norm_num)⟩,
   ⟨by norm_num, (conta_depositar_spec ⟨10, 1, ⟨[]⟩⟩ 10 [] 5).2.2.2 (by norm_num)⟩⟩

/-! ## C1 -/

/-- C1: ContaCorrente.sacar validates in order, first failing check
winning: an amount over the per-transaction cap fails with no state change
regardless of the balance; otherwise a daily withdrawal count at the limit
fails with no state change; otherwise it delegates to the base Conta.sacar.
The procedural sacar of desafio.py likewise rejects an amount over the cap
with no state change regardless of the balance. -/
theorem contaCorrente_sacar_validation_order
    (cc : ContaCorrente) (valor : ℚ) (hoje : Data)
    (s : ℚ) (e : List (String × ℚ)) (ns : Nat) (lim : ℚ) (ls : Nat) :
    (valor > cc.limite → cc.sacar valor hoje = (false, cc)) ∧
    (valor ≤ cc.limite → (cc.saques_do_dia hoje).length ≥ cc.limite_saques →
      cc.sacar valor hoje = (false, cc)) ∧
    (valor ≤ cc.limite → (cc.saques_do_dia hoje).length < cc.limite_saques →
      cc.sacar valor hoje =
        ((cc.conta.sacar valor).1, { cc with conta := (cc.conta.sacar valor).2 })) ∧
    (valor > lim → Desafio.sacar s e ns valor lim ls = (s, e, ns)) := by
  refine ⟨fun h1 => ?_, fun h1 h2 => ?_, fun h1 h2 => ?_, fun h1 => ?_⟩
  · simp only [ContaCorrente.sacar]
    rw [if_pos h1]
  · simp only [ContaCorrente.sacar]
    rw [if_neg (not_lt.mpr h1), if_pos h2]
  · simp only [ContaCorrente.sacar]
    rw [if_neg (not_lt.mpr h1), if_neg (by omega)]
  · simp only [Desafio.sacar]
    split_ifs <;> first | rfl | linarith

/-- Witness for C1: on a fresh current account with cap 500, daily limit 3
and balance 1000, a withdrawal of 600 fails although the balance covers it,
a withdrawal of 400 delegates to the base logic, and the procedural sacar
with cap 500 also rejects 600 unchanged. -/
theorem contaCorrente_sacar_validation_order_witness :
    ((600 : ℚ) > (500 : ℚ) ∧
      ContaCorrente.sacar ⟨⟨1000, 1, ⟨[]⟩⟩, 500, 3⟩ 600 ⟨12, 10, 2026⟩ =
        (false, ⟨⟨1000, 1, ⟨[]⟩⟩, 500, 3⟩)) ∧
    ((400 : ℚ) ≤ (500 : ℚ) ∧
      ((ContaCorrente.mk ⟨1000, 1, ⟨[]⟩⟩ 500 3).saques_do_dia ⟨12, 10, 2026⟩).length < 3 ∧
      ContaCorrente.sacar ⟨⟨1000, 1, ⟨[]⟩⟩, 500, 3⟩ 400 ⟨12, 10, 2026⟩ =
        (((Conta.mk 1000 1 ⟨[]⟩).sacar 400).1,
          { ContaCorrente.mk ⟨1000, 1, ⟨[]⟩⟩ 500 3 with
              conta := ((Conta.mk 1000 1 ⟨[]⟩).sacar 400).2 })) ∧
    ((600 : ℚ) > (500 : ℚ) ∧
      Desafio.sacar 1000 [] 0 600 500 3 = (1000, [], 0)) :=
  ⟨⟨by norm_num,
    (contaCorrente_sacar_validation_order ⟨⟨1000, 1, ⟨[]⟩⟩, 500, 3⟩ 600
      ⟨12, 10, 2026⟩ 1000 [] 0 500 3).1 (by norm_num)⟩,
   ⟨by norm_num, by decide,
    (contaCorrente_sacar_validation_order ⟨⟨1000, 1, ⟨[]⟩⟩, 500, 3⟩ 400
      ⟨12, 10, 2026⟩ 1000 [] 0 500 3).2.2.1 (by norm_num) (by decide)⟩,
   ⟨by norm_num,
    (contaCorrente_sacar_validation_order ⟨⟨1000, 1, ⟨[]⟩⟩, 500, 3⟩ 600
      ⟨12, 10, 2026⟩ 1000 [] 0 500 3).2.2.2 (by norm_num)⟩⟩

/-! ## C2 -/

/-- C2: Cliente.realizar_transacao returns false with the account fully
unchanged once the account already holds two or more of today's
transactions of either kind, and otherwise returns exactly
transacao.registrar on that account. -/
theorem realizar_transacao_daily_cap (cc : ContaCorrente) (t : Transacao)
    (agora : DateTime) :
    ((cc.conta.historico.transacoes_do_dia agora.date).length ≥ 2 →
      Cliente.realizar_transacao cc t agora = (false, cc)) ∧
    ((cc.conta.historico.transacoes_do_dia agora.date).length < 2 →
      Cliente.realizar_transacao cc t agora = t.registrarCC cc agora) := by
  constructor <;> intro h <;> unfold Cliente.realizar_transacao
  · rw [if_pos h]
  · rw [if_neg (by omega)]

/-- Witness for C2: with two records dated today already in the history, a
deposit of 100 is rejected unchanged; with an empty history it is passed
to registrar. -/
theorem realizar_transacao_daily_cap_witness :
    (((ContaCorrente.mk
        ⟨0, 1, ⟨[⟨"Deposito", 10, ⟨⟨12, 10, 2026⟩, 9, 0, 0⟩⟩,
                 ⟨"Saque", 5, ⟨⟨12, 10, 2026⟩, 10, 0, 0⟩⟩]⟩⟩ 500 3).conta.historico.transacoes_do_dia
        (DateTime.mk ⟨12, 10, 2026⟩ 11 0 0).date).length ≥ 2 ∧
      Cliente.realizar_transacao
        ⟨⟨0, 1, ⟨[⟨"Deposito", 10, ⟨⟨12, 10, 2026⟩, 9, 0, 0⟩⟩,
                  ⟨"Saque", 5, ⟨⟨12, 10, 2026⟩, 10, 0, 0⟩⟩]⟩⟩, 500, 3⟩
        (.deposito 100) ⟨⟨12, 10, 2026⟩, 11, 0, 0⟩ =
        (false, ⟨⟨0, 1, ⟨[⟨"Deposito", 10, ⟨⟨12, 10, 2026⟩, 9, 0, 0⟩⟩,
                  ⟨"Saque", 5, ⟨⟨12, 10, 2026⟩, 10, 0, 0⟩⟩]⟩⟩, 500, 3⟩)) ∧
    (((ContaCorrente.mk ⟨0, 1, ⟨[]⟩⟩ 500 3).conta.historico.transacoes_do_dia
        (DateTime.mk ⟨12, 10, 2026⟩ 11 0 0).date).length < 2 ∧
      Cliente.realizar_transacao ⟨⟨0, 1, ⟨[]⟩⟩, 500, 3⟩ (.deposito 100)
        ⟨⟨12, 10, 2026⟩, 11, 0, 0⟩ =
        Transacao.registrarCC (.deposito 100) ⟨⟨0, 1, ⟨[]⟩⟩, 500, 3⟩
          ⟨⟨12, 10, 2026⟩, 11, 0, 0⟩) :=
  ⟨⟨by decide,
    (realizar_transacao_daily_cap
      ⟨⟨0, 1, ⟨[⟨"Deposito", 10, ⟨⟨12, 10, 2026⟩, 9, 0, 0⟩⟩,
                ⟨"Saque", 5, ⟨⟨12, 10, 2026⟩, 10, 0, 0⟩⟩]⟩⟩, 500, 3⟩
      (.deposito 100) ⟨⟨12, 10, 2026⟩, 11, 0, 0⟩).1 (by decide)⟩,
   ⟨by decide,
    (realizar_transacao_daily_cap ⟨⟨0, 1, ⟨[]⟩⟩, 500, 3⟩ (.deposito 100)
      ⟨⟨12, 10, 2026⟩, 11, 0, 0⟩).2 (by decide)⟩⟩

/-! ## C5 -/

/-- C5: registrar performs the dispatched account operation and returns
exactly its boolean; when the operation succeeds exactly one record built
from the transaction is appended to the history (with the balance as the
operation left it), and when it fails the account is returned unchanged. -/
theorem registrar_spec (t : Transacao) (c : Conta) (agora : DateTime) :
    ((t.registrar c agora).1 = (t.operacao c).1) ∧
    ((t.operacao c).1 = true →
      (t.registrar c agora).2.historico.transacoes =
        c.historico.transacoes ++ [⟨t.tipo, t.valor, agora⟩] ∧
      (t.registrar c agora).2.saldo = (t.operacao c).2.saldo) ∧
    ((t.operacao c).1 = false → (t.registrar c agora).2 = c) := by
  refine ⟨?_, fun h => ?_, fun h => ?_⟩
  · simp only [Transacao.registrar]
    split <;> rfl
  · simp only [Transacao.registrar, h, if_true]
    constructor
    · show ((t.operacao c).2.historico.adicionar_transacao t agora).transacoes = _
      rw [Historico.adicionar_transacao, Transacao.operacao_historico]
    · trivial
  · simp only [Transacao.registrar, h, Bool.false_eq_true, if_false]
    exact t.operacao_fail_eq c h

/-- Witness for C5: a deposit of 5 on balance 10 succeeds and appends its
record; a withdrawal of 100 on balance 50 fails and leaves the account
unchanged. -/
theorem registrar_spec_witness :
    ((Transacao.operacao (.deposito 5) ⟨10, 1, ⟨[]⟩⟩).1 = true ∧
      (Transacao.registrar (.deposito 5) ⟨10, 1, ⟨[]⟩⟩
          ⟨⟨12, 10, 2026⟩, 9, 0, 0⟩).2.historico.transacoes =
        (Conta.mk 10 1 ⟨[]⟩).historico.transacoes ++
          [⟨Transacao.tipo (.deposito 5), Transacao.valor (.deposito 5),
            ⟨⟨12, 10, 2026⟩, 9, 0, 0⟩⟩]) ∧
    ((Transacao.operacao (.saque 100) ⟨50, 1, ⟨[]⟩⟩).1 = false ∧
      (Transacao.registrar (.saque 100) ⟨50, 1, ⟨[]⟩⟩
          ⟨⟨12, 10, 2026⟩, 9, 0, 0⟩).2 = ⟨50, 1, ⟨[]⟩⟩) :=
  ⟨⟨by decide,
    ((registrar_spec (.deposito 5) ⟨10, 1, ⟨[]⟩⟩ ⟨⟨12, 10, 2026⟩, 9, 0, 0⟩).2.1
      (by decide)).1⟩,
   ⟨by decide,
    (registrar_spec (.saque 100) ⟨50, 1, ⟨[]⟩⟩ ⟨⟨12, 10, 2026⟩, 9, 0, 0⟩).2.2
      (by decide)⟩⟩

/-! ## C6 -/

/-- One deposit or withdrawal request in a trace of account operations. -/
inductive Op where
  | dep (v : ℚ)
  | saq (v : ℚ)

/-- The account state after one requested operation, successful or not. -/
def aplicarOp (c : Conta) (op : Op) : Conta :=
  match op with
  | .dep v => (c.depositar v).2
  | .saq v => (c.sacar v).2

/-- The account state after a whole trace of requested operations. -/
def executarOps (c : Conta) (ops : List Op) : Conta :=
  ops.foldl aplicarOp c

lemma aplicarOp_saldo_nonneg (c : Conta) (op : Op) (h : 0 ≤ c.saldo) :
    0 ≤ (aplicarOp c op).saldo := by
  cases op with
  | dep v =>
    simp only [aplicarOp, Conta.depositar]
    split_ifs <;> simp <;> linarith
  | saq v =>
    simp only [aplicarOp, Conta.sacar]
    split_ifs <;> simp <;> linarith

lemma executarOps_saldo_nonneg (ops : List Op) :
    ∀ c : Conta, 0 ≤ c.saldo → 0 ≤ (executarOps c ops).saldo := by
  induction ops with
  | nil => exact fun c h => h
  | cons op ops ih =>
    intro c h
    exact ih _ (aplicarOp_saldo_nonneg c op h)

/-- C6: starting from the initial balance 0 of Conta.__init__, after any
trace of deposit and withdrawal requests, successful or failed, the balance
is never negative. -/
theorem saldo_nonneg_invariant (numero : Nat) (ops : List Op) :
    0 ≤ (executarOps (Conta.nova_conta numero) ops).saldo :=
  executarOps_saldo_nonneg ops (Conta.nova_conta numero) (le_refl 0)

/-! ## C7 -/

/-- C7: transacoes_do_dia is exactly the date-only filter of the history:
it equals the records whose stored date part is the current date, it is a
sublist of the history (order preserved), and membership is characterized
by date equality alone, ignoring the time of day. -/
theorem transacoes_do_dia_spec (h : Historico) (hoje : Data) :
    h.transacoes_do_dia hoje =
      h.transacoes.filter (fun r => decide (r.data.date = hoje)) ∧
    (h.transacoes_do_dia hoje).Sublist h.transacoes ∧
    ∀ r, r ∈ h.transacoes_do_dia hoje ↔ r ∈ h.transacoes ∧ r.data.date = hoje := by
  refine ⟨?_, List.filter_sublist _, fun r => ?_⟩
  · unfold Historico.transacoes_do_dia
    exact List.filter_congr (fun x _ => decide_eq_decide.mpr eq_comm)
  · simp only [Historico.transacoes_do_dia, List.mem_filter, decide_eq_true_eq]
    exact and_congr Iff.rfl eq_comm

/-! ## C8 -/

/-- C8: gerar_relatorio with a kind yields exactly the records whose kind
matches it under lowercasing, as a filter of the history, hence in the
original order; with the kind omitted it yields the whole history. -/
theorem gerar_relatorio_spec (h : Historico) :
    h.gerar_relatorio none = h.transacoes ∧
    ∀ tp, h.gerar_relatorio (some tp) =
        h.transacoes.filter (fun r => decide (pyLower r.tipo = pyLower tp)) ∧
      (h.gerar_relatorio (some tp)).Sublist h.transacoes := by
  refine ⟨?_, fun tp => ⟨rfl, List.filter_sublist _⟩⟩
  unfold Historico.gerar_relatorio
  exact List.filter_eq_self.mpr (fun a _ => rfl)

/-! ## C10 -/

/-- C10: with a kind argument, gerar_relatorio matches case-insensitively:
a record is yielded exactly when its lowercased kind equals the lowercased
argument; in particular a record stored with kind Saque is yielded when
filtering by the all-lowercase string saque. -/
theorem gerar_relatorio_case_insensitive (h : Historico) (tp : String) :
    (∀ r, r ∈ h.gerar_relatorio (some tp) ↔
       r ∈ h.transacoes ∧ pyLower r.tipo = pyLower tp) ∧
    (∀ r, r ∈ h.transacoes → r.tipo = "Saque" →
       r ∈ h.gerar_relatorio (some "saque")) := by
  constructor
  · intro r
    simp only [Historico.gerar_relatorio, List.mem_filter, decide_eq_true_eq]
  · intro r hr htipo
    simp only [Historico.gerar_relatorio, List.mem_filter, decide_eq_true_eq]
    exact ⟨hr, by rw [htipo]; decide⟩

/-- Witness for C10: in a one-record history whose record has kind Saque,
filtering by the lowercase string saque yields that record. -/
theorem gerar_relatorio_case_insensitive_witness :
    (Registro.mk "Saque" 5 ⟨⟨12, 10, 2026⟩, 9, 0, 0⟩) ∈
      (Historico.mk [⟨"Saque", 5, ⟨⟨12, 10, 2026⟩, 9, 0, 0⟩⟩]).transacoes ∧
    (Registro.mk "Saque" 5 ⟨⟨12, 10, 2026⟩, 9, 0, 0⟩).tipo = "Saque" ∧
    (Registro.mk "Saque" 5 ⟨⟨12, 10, 2026⟩, 9, 0, 0⟩) ∈
      (Historico.mk [⟨"Saque", 5, ⟨⟨12, 10, 2026⟩, 9, 0, 0⟩⟩]).gerar_relatorio
        (some "saque") :=
  ⟨by simp, rfl,
   (gerar_relatorio_case_insensitive
      ⟨[⟨"Saque", 5, ⟨⟨12, 10, 2026⟩, 9, 0, 0⟩⟩]⟩ "saque").2
     ⟨"Saque", 5, ⟨⟨12, 10, 2026⟩, 9, 0, 0⟩⟩ (by simp) rfl⟩

/-! ## C9 -/

lemma ContaCorrente.sacar_fail_id (cc : ContaCorrente) (v : ℚ) (d : Data)
    (h : (cc.sacar v d).1 = false) : (cc.sacar v d).2 = cc := by
  simp only [ContaCorrente.sacar] at h ⊢
  split_ifs at h ⊢
  · rfl
  · rfl
  · rw [cc.conta.sacar_fail_eq v h]

lemma ContaCorrente.depositar_fail_id (cc : ContaCorrente) (v : ℚ)
    (h : (cc.depositar v).1 = false) : (cc.depositar v).2 = cc := by
  simp only [ContaCorrente.depositar] at h ⊢
  rw [cc.conta.depositar_fail_eq v h]

lemma Transacao.operacaoCC_fail_eq (t : Transacao) (cc : ContaCorrente)
    (d : Data) (h : (t.operacaoCC cc d).1 = false) : (t.operacaoCC cc d).2 = cc := by
  cases t with
  | saque v => exact cc.sacar_fail_id v d h
  | deposito v => exact cc.depositar_fail_id v h

lemma Transacao.registrarCC_fail_eq (t : Transacao) (cc : ContaCorrente)
    (agora : DateTime) (h : (t.registrarCC cc agora).1 = false) :
    (t.registrarCC cc agora).2 = cc := by
  simp only [Transacao.registrarCC] at h ⊢
  by_cases hb : (t.operacaoCC cc agora.date).1 = true
  · rw [if_pos hb] at h
    exact absurd h (by simp [hb])
  · rw [if_neg hb] at h ⊢
    exact t.operacaoCC_fail_eq cc agora.date (Bool.not_eq_true _ ▸ hb)

/-- C9: a rejected attempt mutates nothing, so it consumes no daily cap:
when registrar fails the account is returned unchanged, when
realizar_transacao fails the account is returned unchanged, and in the
first case the counts of today's transactions and of today's withdrawals
are exactly what they were. -/
theorem failed_attempt_consumes_no_cap (cc : ContaCorrente) (t : Transacao)
    (agora : DateTime) (d : Data) :
    ((t.registrarCC cc agora).1 = false → (t.registrarCC cc agora).2 = cc) ∧
    ((Cliente.realizar_transacao cc t agora).1 = false →
      (Cliente.realizar_transacao cc t agora).2 = cc) ∧
    ((t.registrarCC cc agora).1 = false →
      ((t.registrarCC cc agora).2.conta.historico.transacoes_do_dia d).length =
        (cc.conta.historico.transacoes_do_dia d).length ∧
      ((t.registrarCC cc agora).2.saques_do_dia d).length =
        (cc.saques_do_dia d).length) := by
  refine ⟨t.registrarCC_fail_eq cc agora, fun h => ?_, fun h => ?_⟩
  · unfold Cliente.realizar_transacao at h ⊢
    split_ifs at h ⊢
    · rfl
    · exact t.registrarCC_fail_eq cc agora h
  · rw [t.registrarCC_fail_eq cc agora h]
    exact ⟨rfl, rfl⟩

/-- Witness for C9: a withdrawal of 600 against cap 500 fails, and the
account with its history and daily counts is exactly as before. -/
theorem failed_attempt_consumes_no_cap_witness :
    ((Transacao.registrarCC (.saque 600) ⟨⟨1000, 1, ⟨[]⟩⟩, 500, 3⟩
        ⟨⟨12, 10, 2026⟩, 9, 0, 0⟩).1 = false ∧
      (Transacao.registrarCC (.saque 600) ⟨⟨1000, 1, ⟨[]⟩⟩, 500, 3⟩
        ⟨⟨12, 10, 2026⟩, 9, 0, 0⟩).2 = ⟨⟨1000, 1, ⟨[]⟩⟩, 500, 3⟩) ∧
    ((Transacao.registrarCC (.saque 600) ⟨⟨1000, 1, ⟨[]⟩⟩, 500, 3⟩
        ⟨⟨12, 10, 2026⟩, 9, 0, 0⟩).2.saques_do_dia ⟨12, 10, 2026⟩).length =
      ((ContaCorrente.mk ⟨1000, 1, ⟨[]⟩⟩ 500 3).saques_do_dia ⟨12, 10, 2026⟩).length :=
  ⟨⟨by decide,
    (failed_attempt_consumes_no_cap ⟨⟨1000, 1, ⟨[]⟩⟩, 500, 3⟩ (.saque 600)
      ⟨⟨12, 10, 2026⟩, 9, 0, 0⟩ ⟨12, 10, 2026⟩).1 (by decide)⟩,
   ((failed_attempt_consumes_no_cap ⟨⟨1000, 1, ⟨[]⟩⟩, 500, 3⟩ (.saque 600)
      ⟨⟨12, 10, 2026⟩, 9, 0, 0⟩ ⟨12, 10, 2026⟩).2.2 (by decide)).2⟩
